import Mathlib

/-!
Shallow embedding of `pyHS100/smartplug.py` (class `SmartPlug`).

The Python class derives a typed control surface from the device's
`sys_info` snapshot (a field-named mapping) and issues commands through
`_query_helper`.  We model:

* the snapshot fields the class reads (`relay_state`, `led_off`,
  `feature`, `on_time`, `model`) as a structure `SysInfo`;
* Python values that can be passed to the `state` setter as `PyValue`
  (strings, ints, bools, None), with `typeName` standing for
  Python's `type(value)`;
* dispatched commands (`_query_helper(module, command, params)`) as a
  `Command` structure; an operation returns the list of commands it
  dispatched, in order;
* `ValueError` as `PyError.valueError` carrying the argument tuple
  passed to the constructor (Python does not interpolate the format
  string there, it stores the raw arguments);
* `_LOGGER.warning` events as `Warning` values returned alongside
  results;
* `datetime.datetime.now()` as an explicit `PyDatetime` argument
  (seconds since epoch), `datetime.timedelta(seconds=s)` as
  `PyTimedelta`.

Python truthiness of an int (`bool(n)`) is `n ≠ 0`; `str.upper` on the
ASCII strings compared here is `String.toUpper`.
-/

deriving instance DecidableEq for Except

namespace PyHS100

/-- The fields of the `sys_info` snapshot that `SmartPlug` reads. -/
structure SysInfo where
  relay_state : Int
  led_off : Int
  feature : String
  on_time : Int
  model : String
deriving DecidableEq, Repr

/-- Python values that may reach the `state` setter. -/
inductive PyValue where
  | str (s : String)
  | int (n : Int)
  | bool (b : Bool)
  | pynone
deriving DecidableEq, Repr

/-- `type(value)` rendered by its Python name, as it appears inside a
`ValueError` argument tuple. -/
inductive PyTypeOrVal where
  | val (v : PyValue)
  | pytype (name : String)
deriving DecidableEq, Repr

/-- The Python type name of a value (what `type(value)` prints as). -/
def PyValue.typeName : PyValue → String
  | .str _ => "str"
  | .int _ => "int"
  | .bool _ => "bool"
  | .pynone => "NoneType"

/-- Whether the value is a `str` (Python `isinstance(value, str)`). -/
def PyValue.isStr : PyValue → Bool
  | .str _ => true
  | _ => false

/-- `ValueError(args...)`: the raw (non-interpolated) argument tuple. -/
inductive PyError where
  | valueError (args : List PyTypeOrVal)
deriving DecidableEq, Repr

/-- One `_query_helper(module, command, params)` dispatch. -/
structure Command where
  module : String
  command : String
  params : List (String × Int)
deriving DecidableEq, Repr

/-- One `_LOGGER.warning` event, with the data interpolated into it. -/
inductive DiagWarning where
  | unknownState (raw : Int)
  | unknownFeature (code : String) (model : String)
deriving DecidableEq, Repr

/-- Local state of a `SmartPlug` object (`__init__` sets
`emeter_type = "emeter"` and `emeter_units = False`). -/
structure SmartPlug where
  ip_address : String
  emeter_type : String
  emeter_units : Bool
deriving DecidableEq, Repr

/-- A plug as built by `SmartPlug.__init__`. -/
def mkPlug (ip : String) : SmartPlug :=
  { ip_address := ip, emeter_type := "emeter", emeter_units := false }

def SWITCH_STATE_ON : String := "ON"
def SWITCH_STATE_OFF : String := "OFF"
def SWITCH_STATE_UNKNOWN : String := "UNKNOWN"

def FEATURE_ENERGY_METER : String := "ENE"
def FEATURE_TIMER : String := "TIM"

def ALL_FEATURES : List String := [FEATURE_ENERGY_METER, FEATURE_TIMER]

/-- Python `bool(n)` for an int `n`. -/
def pyTruthyInt (n : Int) : Bool := decide (n ≠ 0)

/-- Python `s.upper()` restricted to ASCII (the only case that matters
for comparison against the ASCII literals `"ON"` / `"OFF"`): uppercase
each character. -/
def pyUpper (s : String) : String := String.mk (s.data.map Char.toUpper)

/-- Python `int(b)` for a bool `b`. -/
def pyIntOfBool (b : Bool) : Int := if b then 1 else 0

/--
The `state` property getter:

```python
relay_state = self.sys_info['relay_state']
if relay_state == 0: return SmartPlug.SWITCH_STATE_OFF
elif relay_state == 1: return SmartPlug.SWITCH_STATE_ON
else:
    _LOGGER.warning("Unknown state %s returned.", relay_state)
    return SmartPlug.SWITCH_STATE_UNKNOWN
```
-/
def state_get (info : SysInfo) : String × List DiagWarning :=
  let relay_state := info.relay_state
  if relay_state = 0 then (SWITCH_STATE_OFF, [])
  else if relay_state = 1 then (SWITCH_STATE_ON, [])
  else (SWITCH_STATE_UNKNOWN, [DiagWarning.unknownState relay_state])

/-- `turn_on`: `self._query_helper("system", "set_relay_state", {"state": 1})`. -/
def turn_on_cmd : Command := ⟨"system", "set_relay_state", [("state", 1)]⟩

/-- `turn_off`: `self._query_helper("system", "set_relay_state", {"state": 0})`. -/
def turn_off_cmd : Command := ⟨"system", "set_relay_state", [("state", 0)]⟩

/--
The `state` property setter:

```python
if not isinstance(value, str):
    raise ValueError("State must be str, not of %s.", type(value))
elif value.upper() == SmartPlug.SWITCH_STATE_ON:
    self.turn_on()
elif value.upper() == SmartPlug.SWITCH_STATE_OFF:
    self.turn_off()
else:
    raise ValueError("State %s is not valid.", value)
```

The result is the (explicitly threaded) object state together with the
commands dispatched, or the raised error.
-/
def state_set (self : SmartPlug) (value : PyValue) :
    Except PyError (SmartPlug × List Command) :=
  match value with
  | PyValue.str s =>
    if pyUpper s = SWITCH_STATE_ON then Except.ok (self, [turn_on_cmd])
    else if pyUpper s = SWITCH_STATE_OFF then Except.ok (self, [turn_off_cmd])
    else Except.error (PyError.valueError
      [PyTypeOrVal.val (PyValue.str "State %s is not valid."),
       PyTypeOrVal.val (PyValue.str s)])
  | v => Except.error (PyError.valueError
      [PyTypeOrVal.val (PyValue.str "State must be str, not of %s."),
       PyTypeOrVal.pytype v.typeName])

/-- `is_on`: `bool(self.sys_info['relay_state'])`. -/
def is_on (info : SysInfo) : Bool := pyTruthyInt info.relay_state

/-- Python `s.split(':')` on the underlying character list: every
occurrence of `':'` separates pieces, empty pieces are kept, and the
result of splitting the empty string is `[[]]`. -/
def pySplitColon : List Char → List (List Char)
  | [] => [[]]
  | c :: rest =>
    match pySplitColon rest with
    | [] => [[c]]
    | h :: t => if c = ':' then [] :: h :: t else (c :: h) :: t

/-- `self.sys_info['feature'].split(':')` as strings. -/
def split_feature (s : String) : List String :=
  (pySplitColon s.data).map fun cs => String.mk cs

/--
The warning loop of the `features` property:

```python
for feature in features:
    if feature not in SmartPlug.ALL_FEATURES:
        _LOGGER.warning("Unknown feature %s on device %s.", feature, self.model)
```
-/
def features_loop (fs : List String) (model : String) : List DiagWarning :=
  match fs with
  | [] => []
  | f :: rest =>
    (if f ∈ ALL_FEATURES then [] else [DiagWarning.unknownFeature f model])
      ++ features_loop rest model

/-- The `features` property: the colon-split list, plus the warnings
emitted while scanning it. -/
def features (info : SysInfo) : List String × List DiagWarning :=
  let fs := split_feature info.feature
  (fs, features_loop fs info.model)

/-- `has_emeter`: `SmartPlug.FEATURE_ENERGY_METER in self.features`. -/
def has_emeter (info : SysInfo) : Bool :=
  decide (FEATURE_ENERGY_METER ∈ (features info).1)

/-- The `led` property getter: `bool(1 - self.sys_info["led_off"])`. -/
def led_get (info : SysInfo) : Bool := pyTruthyInt (1 - info.led_off)

/-- The `led` property setter:
`self._query_helper("system", "set_led_off", {"off": int(not state)})`. -/
def led_set (self : SmartPlug) (state : Bool) : SmartPlug × List Command :=
  (self, [⟨"system", "set_led_off", [("off", pyIntOfBool (!state))]⟩])

/-- `datetime.datetime.now()` abstracted as seconds since the epoch. -/
structure PyDatetime where
  epochSeconds : Int
deriving DecidableEq, Repr

/-- `datetime.timedelta(seconds=s)`. -/
structure PyTimedelta where
  seconds : Int
deriving DecidableEq, Repr

/-- `datetime - timedelta`. -/
def datetimeSub (d : PyDatetime) (td : PyTimedelta) : PyDatetime :=
  ⟨d.epochSeconds - td.seconds⟩

/-- The `on_since` property:
`datetime.datetime.now() - datetime.timedelta(seconds=self.sys_info["on_time"])`,
with `now` passed explicitly. -/
def on_since (now : PyDatetime) (info : SysInfo) : PyDatetime :=
  datetimeSub now ⟨info.on_time⟩

/-- A concrete plug (the docstring's usage example address). -/
def plug0 : SmartPlug := mkPlug "192.168.1.105"

/-- Joining character pieces back with `':'`; left inverse of the split. -/
def joinColon : List (List Char) → List Char
  | [] => []
  | [p] => p
  | p :: q :: ps => p ++ ':' :: joinColon (q :: ps)

lemma pySplitColon_ne_nil (l : List Char) : pySplitColon l ≠ [] := by
  cases l with
  | nil => simp [pySplitColon]
  | cons c rest =>
    simp only [pySplitColon]
    cases h : pySplitColon rest with
    | nil => simp
    | cons h t =>
      by_cases hc : c = ':' <;> simp [hc]

lemma joinColon_pySplitColon (l : List Char) : joinColon (pySplitColon l) = l := by
  induction l with
  | nil => simp [pySplitColon, joinColon]
  | cons c rest ih =>
    simp only [pySplitColon]
    cases h : pySplitColon rest with
    | nil => exact absurd h (pySplitColon_ne_nil rest)
    | cons hd tl =>
      rw [h] at ih
      by_cases hc : c = ':'
      · subst hc
        simpa [joinColon] using ih
      · simp only [if_neg hc]
        cases tl with
        | nil => simpa [joinColon] using ih
        | cons x xs => simpa [joinColon] using ih

lemma pySplitColon_no_colon (l : List Char) :
    ∀ p ∈ pySplitColon l, ':' ∉ p := by
  induction l with
  | nil => simp [pySplitColon]
  | cons c rest ih =>
    simp only [pySplitColon]
    cases h : pySplitColon rest with
    | nil => exact absurd h (pySplitColon_ne_nil rest)
    | cons hd tl =>
      rw [h] at ih
      by_cases hc : c = ':'
      · subst hc
        simp only [if_pos rfl]
        intro p hp
        rcases List.mem_cons.mp hp with h1 | h1
        · subst h1; simp
        · exact ih p h1
      · simp only [if_neg hc]
        intro p hp
        rcases List.mem_cons.mp hp with h1 | h1
        · subst h1
          intro hmem
          rcases List.mem_cons.mp hmem with h2 | h2
          · exact hc h2.symm
          · exact ih hd (List.mem_cons_self hd tl) h2
        · exact ih p (List.mem_cons_of_mem hd h1)

lemma features_loop_eq (fs : List String) (m : String) :
    features_loop fs m =
      (fs.filter fun f => decide (f ∉ ALL_FEATURES)).map
        fun f => DiagWarning.unknownFeature f m := by
  induction fs with
  | nil => simp [features_loop]
  | cons f rest ih =>
    by_cases hf : f ∈ ALL_FEATURES
    · simp [features_loop, hf, List.filter, ih]
    · simp [features_loop, hf, List.filter, ih]

lemma split_feature_data (s : String) :
    (split_feature s).map String.data = pySplitColon s.data := by
  unfold split_feature
  have h : ∀ l : List (List Char),
      ((l.map fun cs => String.mk cs).map String.data) = l := by
    intro l
    induction l with
    | nil => rfl
    | cons x xs ih => simpa using ih
  exact h _

/-- C1: for a snapshot with `relay_state = v`, the `state` getter returns
`OFF` iff `v = 0`, `ON` iff `v = 1`, and otherwise `UNKNOWN` together
with a warning carrying the raw value; it is a total function, so it
never raises. -/
theorem state_get_relay_decode (info : SysInfo) :
    ((state_get info).1 = SWITCH_STATE_OFF ↔ info.relay_state = 0) ∧
    ((state_get info).1 = SWITCH_STATE_ON ↔ info.relay_state = 1) ∧
    (info.relay_state = 0 → state_get info = (SWITCH_STATE_OFF, [])) ∧
    (info.relay_state = 1 → state_get info = (SWITCH_STATE_ON, [])) ∧
    (info.relay_state ≠ 0 → info.relay_state ≠ 1 →
      state_get info =
        (SWITCH_STATE_UNKNOWN, [DiagWarning.unknownState info.relay_state])) := by
  by_cases h0 : info.relay_state = 0
  · simp [state_get, h0, SWITCH_STATE_OFF, SWITCH_STATE_ON]
  · by_cases h1 : info.relay_state = 1
    · simp [state_get, h0, h1, SWITCH_STATE_OFF, SWITCH_STATE_ON]
    · simp [state_get, h0, h1, SWITCH_STATE_OFF, SWITCH_STATE_ON,
        SWITCH_STATE_UNKNOWN]

/-- Witness for C1 at the unknown raw value 2. -/
theorem state_get_relay_decode_witness :
    state_get ⟨2, 0, "", 0, "HS100"⟩ =
      (SWITCH_STATE_UNKNOWN, [DiagWarning.unknownState 2]) :=
  (state_get_relay_decode ⟨2, 0, "", 0, "HS100"⟩).2.2.2.2 (by decide) (by decide)

/-- C2 counterexample: `set_state(42)` raises a `ValueError` whose
argument tuple carries the *type name* `"int"` and not the offending
value `42` itself, so the error does not name the offending value. -/
theorem state_set_type_error_counterexample :
    state_set plug0 (PyValue.int 42) =
      Except.error (PyError.valueError
        [PyTypeOrVal.val (PyValue.str "State must be str, not of %s."),
         PyTypeOrVal.pytype "int"]) ∧
    List.contains
      [PyTypeOrVal.val (PyValue.str "State must be str, not of %s."),
       PyTypeOrVal.pytype "int"]
      (PyTypeOrVal.val (PyValue.int 42)) = false := by decide

/-- C2 (amended): a string whose uppercasing is `"ON"` (resp. `"OFF"`)
dispatches exactly one `set_relay_state` command with `state = 1`
(resp. `state = 0`); any other string raises a `ValueError` naming the
offending value, and any non-string raises a `ValueError` naming the
offending value's type; in every error case no command is dispatched. -/
theorem state_set_validation (plug : SmartPlug) (s : String) (v : PyValue) :
    (pyUpper s = SWITCH_STATE_ON →
      state_set plug (PyValue.str s) = Except.ok (plug, [turn_on_cmd])) ∧
    (pyUpper s = SWITCH_STATE_OFF →
      state_set plug (PyValue.str s) = Except.ok (plug, [turn_off_cmd])) ∧
    (pyUpper s ≠ SWITCH_STATE_ON → pyUpper s ≠ SWITCH_STATE_OFF →
      state_set plug (PyValue.str s) =
        Except.error (PyError.valueError
          [PyTypeOrVal.val (PyValue.str "State %s is not valid."),
           PyTypeOrVal.val (PyValue.str s)])) ∧
    (PyValue.isStr v = false →
      state_set plug v =
        Except.error (PyError.valueError
          [PyTypeOrVal.val (PyValue.str "State must be str, not of %s."),
           PyTypeOrVal.pytype v.typeName])) := by
  refine ⟨?_, ?_, ?_, ?_⟩
  · intro h
    simp [state_set, h]
  · intro h
    by_cases h1 : pyUpper s = SWITCH_STATE_ON
    · rw [h] at h1
      exact absurd h1 (by decide)
    · simp [state_set, h1, h, SWITCH_STATE_OFF, SWITCH_STATE_ON]
  · intro h1 h2
    simp [state_set, h1, h2]
  · intro h
    cases v with
    | str s2 => simp [PyValue.isStr] at h
    | int n => rfl
    | bool b => rfl
    | pynone => rfl

/-- Witness for C2 at the inputs `"oN"`, `"MAYBE"` and `None`. -/
theorem state_set_validation_witness :
    state_set plug0 (PyValue.str "oN") = Except.ok (plug0, [turn_on_cmd]) ∧
    state_set plug0 (PyValue.str "MAYBE") =
      Except.error (PyError.valueError
        [PyTypeOrVal.val (PyValue.str "State %s is not valid."),
         PyTypeOrVal.val (PyValue.str "MAYBE")]) ∧
    state_set plug0 PyValue.pynone =
      Except.error (PyError.valueError
        [PyTypeOrVal.val (PyValue.str "State must be str, not of %s."),
         PyTypeOrVal.pytype "NoneType"]) :=
  ⟨(state_set_validation plug0 "oN" PyValue.pynone).1 (by decide),
   (state_set_validation plug0 "MAYBE" PyValue.pynone).2.2.1
     (by decide) (by decide),
   (state_set_validation plug0 "MAYBE" PyValue.pynone).2.2.2 (by decide)⟩

/-- C3 counterexample: with `led_off = 2` — a truthy (non-zero) raw
value — the `led` getter returns `true`, contradicting the claim that
every truthy raw value yields `false`. -/
theorem led_get_truthy_counterexample :
    led_get ⟨0, 2, "", 0, ""⟩ = true ∧ pyTruthyInt 2 = true := by decide

/-- C3 (amended): the `led` getter computes `bool(1 - led_off)`, so it
returns `true` iff `led_off ≠ 1`; in particular `true` for raw value 0
and `false` for raw value 1. -/
theorem led_get_decode (info : SysInfo) :
    led_get info = decide (info.led_off ≠ 1) ∧
    led_get ⟨0, 0, "", 0, ""⟩ = true ∧
    led_get ⟨0, 1, "", 0, ""⟩ = false := by
  refine ⟨?_, by decide, by decide⟩
  simp only [led_get, pyTruthyInt, decide_eq_decide]
  omega

/-- C4: `is_on` is the truthiness of the raw relay indicator — `true`
iff `relay_state ≠ 0` — even at raw value 2, where the `state` getter
reports `UNKNOWN`. -/
theorem is_on_truthy (info : SysInfo) :
    (is_on info = true ↔ info.relay_state ≠ 0) ∧
    is_on ⟨2, 0, "", 0, ""⟩ = true ∧
    (state_get ⟨2, 0, "", 0, ""⟩).1 = SWITCH_STATE_UNKNOWN := by
  refine ⟨?_, by decide, by decide⟩
  simp [is_on, pyTruthyInt]

/-- Witness for C4 at relay_state = 3. -/
theorem is_on_truthy_witness : is_on ⟨3, 0, "", 0, ""⟩ = true :=
  (is_on_truthy ⟨3, 0, "", 0, ""⟩).1.mpr (by decide)

/-- C5: `features` returns exactly the colon-split of the feature field
(joining the pieces with `':'` recovers the field and no piece contains
`':'`), never fails, emits exactly one warning per code outside the
known vocabulary — carrying the code and the device model — while
retaining every code; and `has_emeter` holds iff `"ENE"` is among the
split codes. -/
theorem features_decode (info : SysInfo) :
    joinColon (((features info).1).map String.data) = info.feature.data ∧
    (∀ p, p ∈ (features info).1 → decide (':' ∈ p.data) = false) ∧
    (features info).2 =
      ((features info).1.filter fun f => decide (f ∉ ALL_FEATURES)).map
        (fun f => DiagWarning.unknownFeature f info.model) ∧
    (has_emeter info = true ↔ FEATURE_ENERGY_METER ∈ (features info).1) := by
  refine ⟨?_, ?_, ?_, ?_⟩
  · show joinColon ((split_feature info.feature).map String.data) =
      info.feature.data
    rw [split_feature_data]
    exact joinColon_pySplitColon _
  · intro p hp
    have hmem : p.data ∈ (split_feature info.feature).map String.data :=
      List.mem_map_of_mem String.data hp
    rw [split_feature_data] at hmem
    exact decide_eq_false (pySplitColon_no_colon info.feature.data p.data hmem)
  · exact features_loop_eq _ _
  · simp [has_emeter]

/-- Witness for C5 on the feature string `"ENE:XYZ"`. -/
theorem features_decode_witness :
    decide (':' ∈ ("XYZ" : String).data) = false ∧
    has_emeter ⟨1, 0, "ENE:XYZ", 0, "HS100"⟩ = true :=
  ⟨(features_decode ⟨1, 0, "ENE:XYZ", 0, "HS100"⟩).2.1 "XYZ" (by decide),
   (features_decode ⟨1, 0, "ENE:XYZ", 0, "HS100"⟩).2.2.2.mpr (by decide)⟩

/-- C6: for a boolean `enable`, the `led` setter dispatches exactly one
`set_led_off` command whose `off` parameter is the negation of
`enable`: 0 for `true`, 1 for `false`; the object state is untouched. -/
theorem led_set_dispatch (plug : SmartPlug) (enable : Bool) :
    led_set plug enable =
      (plug, [⟨"system", "set_led_off", [("off", if enable then 0 else 1)]⟩]) := by
  cases enable <;> rfl

/-- C7: with the wall clock abstracted as an explicit `now`, `on_since`
returns exactly `now` minus `on_time` seconds, hence within any
non-negative tolerance of it. -/
theorem on_since_now_minus (now : PyDatetime) (info : SysInfo) (tol : Int)
    (htol : 0 ≤ tol) :
    (on_since now info).epochSeconds = now.epochSeconds - info.on_time ∧
    |(on_since now info).epochSeconds -
      (now.epochSeconds - info.on_time)| ≤ tol := by
  refine ⟨rfl, ?_⟩
  simpa [on_since, datetimeSub] using htol

/-- Witness for C7 at `on_time = 3600`, tolerance 0. -/
theorem on_since_now_minus_witness :
    (on_since ⟨1000000⟩ ⟨1, 0, "", 3600, ""⟩).epochSeconds = 1000000 - 3600 :=
  (on_since_now_minus ⟨1000000⟩ ⟨1, 0, "", 3600, ""⟩ 0 (by decide)).1

/-- C8: a successful `state` setter call leaves every local field of
the plug object unchanged — it only dispatches commands. -/
theorem state_set_frame (plug plug2 : SmartPlug) (v : PyValue)
    (cmds : List Command)
    (h : state_set plug v = Except.ok (plug2, cmds)) :
    plug2 = plug ∧ plug2.ip_address = plug.ip_address ∧
    plug2.emeter_type = plug.emeter_type ∧
    plug2.emeter_units = plug.emeter_units := by
  have heq : plug2 = plug := by
    cases v with
    | str s =>
      simp only [state_set] at h
      split_ifs at h <;> simp_all
    | int n => simp [state_set] at h
    | bool b => simp [state_set] at h
    | pynone => simp [state_set] at h
  exact ⟨heq, by rw [heq], by rw [heq], by rw [heq]⟩

/-- Witness for C8 on a successful `set_state("ON")`. -/
theorem state_set_frame_witness :
    state_set plug0 (PyValue.str "ON") = Except.ok (plug0, [turn_on_cmd]) ∧
    plug0 = plug0 :=
  ⟨by decide,
   (state_set_frame plug0 plug0 (PyValue.str "ON") [turn_on_cmd]
     (by decide)).1⟩

/-- C9: the `state` getter is a pure function of the snapshot, so two
reads of an unchanged snapshot give the same result. -/
theorem state_get_deterministic (info info2 : SysInfo) (h : info2 = info) :
    state_get info2 = state_get info := by
  rw [h]

/-- Witness for C9 at a concrete snapshot. -/
theorem state_get_deterministic_witness :
    state_get ⟨1, 0, "", 0, ""⟩ = state_get ⟨1, 0, "", 0, ""⟩ :=
  state_get_deterministic ⟨1, 0, "", 0, ""⟩ ⟨1, 0, "", 0, ""⟩ rfl

/-- C10: on an empty feature field, `features` returns the one-element
sequence `[""]` together with one unknown-code warning for `""`, and
`has_emeter` is `false`; the split sequence is never empty for any
feature field. -/
theorem features_empty_field (r l t : Int) (s m : String) :
    features ⟨r, l, "", t, m⟩ = ([""], [DiagWarning.unknownFeature "" m]) ∧
    has_emeter ⟨r, l, "", t, m⟩ = false ∧
    ((features ⟨r, l, s, t, m⟩).1).isEmpty = false := by
  refine ⟨rfl, rfl, ?_⟩
  show ((pySplitColon s.data).map fun cs => String.mk cs).isEmpty = false
  cases hc : pySplitColon s.data with
  | nil => exact absurd hc (pySplitColon_ne_nil s.data)
  | cons x xs => simp

end PyHS100
